import Mathlib

/-! Shallow embedding of the TeachTheTeens processing-pipeline controller:
the solver flow of App.tsx (processFile, handleSolve, clearImage), the
practice session controller of PracticeMode.tsx (fetchQuestion,
handleDifficultyChange, handleSubmit and the enabling guards of its
triggers), the service client of geminiService.ts (the response handling
of solveMathProblem and the difficulty dispatch of
generatePracticeQuestion) and the display fallback of
SolutionDisplay.tsx. Asynchronous effects are collapsed to atomic state
transformers; the outcome of each remote call is passed in as an
explicit `Except` value. -/

/-- Stage enum, from types.ts `ProcessingStage`. -/
inductive Stage where
  | idle
  | preprocessing
  | ocr
  | parsing
  | solving
  | complete
  | error
deriving DecidableEq

/-- Step record from types.ts. -/
structure Step where
  latex : String
  explanation : String
  rule : Option String
deriving DecidableEq

/-- MathSolution record from types.ts; the `confidence : number` field is
modelled as a rational. -/
structure MathSolution where
  originalLatex : String
  cleanedLatex : String
  problemType : String
  steps : List Step
  finalAnswer : String
  confidence : Rat
deriving DecidableEq

/-- Difficulty union type from types.ts. -/
inductive Difficulty where
  | easy
  | medium
  | hard
deriving DecidableEq

/-- QuizQuestion record from types.ts. -/
structure QuizQuestion where
  id : String
  latex : String
  difficulty : Difficulty
  topic : String
deriving DecidableEq

/-- GradingResult record from types.ts; `score : number` as a rational. -/
structure GradingResult where
  isCorrect : Bool
  score : Rat
  feedback : String
  correctSolution : String
deriving DecidableEq

/-- A user-selected file: its MIME type string and the data URI produced
by FileReader.readAsDataURL. -/
structure SelectedFile where
  fileType : String
  dataUri : String
deriving DecidableEq

/-- The solver component state of App.tsx: the useState hooks
image, processingStage, solution and error. -/
structure AppState where
  image : Option String
  stage : Stage
  solution : Option MathSolution
  errorMsg : Option String
deriving DecidableEq

/-- Initial values of the App.tsx useState hooks. -/
def initialAppState : AppState :=
  { image := none, stage := Stage.idle, solution := none, errorMsg := none }

/-- Whether the first character list leads the second, character by
character. -/
def charsLead : List Char → List Char → Bool
  | [], _ => true
  | _ :: _, [] => false
  | p :: ps, c :: cs => p == c && charsLead ps cs

/-- Structural model of the JavaScript startsWith test on strings: the
pattern's characters lead the string's characters. -/
def strStartsWith (s pat : String) : Bool :=
  charsLead pat.data s.data

/-- A whitespace character as stripped by the JavaScript trim method. -/
def jsSpace (c : Char) : Bool :=
  c == ' ' || c == '\t' || c == '\n' || c == '\r'

/-- Structural model of the JavaScript trim method: strips leading and
trailing whitespace. -/
def jsTrim (s : String) : String :=
  String.mk (((s.data.dropWhile jsSpace).reverse.dropWhile jsSpace).reverse)

/-- The check `file.type.startsWith('image/')` in processFile. -/
def isImageFile (f : SelectedFile) : Bool :=
  strStartsWith f.fileType "image/"

/-- Error message set by processFile for a non-image file. -/
def invalidImageMsg : String := "Please upload a valid image file."

/-- Error message set by handleSolve when the service call throws. -/
def solveFailMsg : String :=
  "Failed to process image. Please try a clearer image or ensure it contains a valid math problem."

/-- A request issued to the reasoning-service client by the solver flow;
it carries the data URI handed to solveMathProblem. -/
inductive SvcRequest where
  | solveReq (dataUri : String)
deriving DecidableEq

/-- processFile from App.tsx: it first clears solution, error and stage
unconditionally, then validates the file type; a valid image is stored
as its data URI (the FileReader onload callback is collapsed to a
synchronous update), an invalid file only sets the error message and
leaves the stored image untouched. The second component lists the
service requests issued: processFile makes none. -/
def processFile (f : SelectedFile) (s : AppState) : AppState × List SvcRequest :=
  let s1 : AppState := { s with solution := none, errorMsg := none, stage := Stage.idle }
  if isImageFile f then ({ s1 with image := some f.dataUri }, ([] : List SvcRequest))
  else ({ s1 with errorMsg := some invalidImageMsg }, ([] : List SvcRequest))

/-- Result of one handleSolve run: the final component state, the list of
stage values the run passes through (starting with the stage it began
in), and the service requests it issued. -/
structure SolveRun where
  state : AppState
  trace : List Stage
  requests : List SvcRequest
deriving DecidableEq

/-- handleSolve from App.tsx. With no image it returns at once. Otherwise
it clears the error, sets preprocessing, ocr, then parsing, issues the
solveMathProblem request there, and on a successful outcome sets solving
then complete and publishes the returned solution; the awaits on the
simulated delays never throw, so the only failure point is the service
call, whose rejection is caught after the parsing stage was set: the
catch sets stage error and the failure message, leaving the solution
hook untouched. The service outcome is the `svc` argument. -/
def handleSolve (s : AppState) (svc : Except Unit MathSolution) : SolveRun :=
  match s.image with
  | none => { state := s, trace := [s.stage], requests := [] }
  | some img =>
    match svc with
    | Except.ok r =>
      { state := { s with errorMsg := none, stage := Stage.complete, solution := some r }
        trace := [s.stage, Stage.preprocessing, Stage.ocr, Stage.parsing,
                  Stage.solving, Stage.complete]
        requests := [SvcRequest.solveReq img] }
    | Except.error _ =>
      { state := { s with errorMsg := some solveFailMsg, stage := Stage.error }
        trace := [s.stage, Stage.preprocessing, Stage.ocr, Stage.parsing, Stage.error]
        requests := [SvcRequest.solveReq img] }

/-- clearImage from App.tsx: resets image, solution, stage and error. -/
def clearImage (_s : AppState) : AppState :=
  { image := none, solution := none, stage := Stage.idle, errorMsg := none }

/-- Public solver operations of App.tsx: selecting a file, pressing the
solve button (with the service outcome it will observe), and clearing. -/
inductive AppEvent where
  | selectFile (f : SelectedFile)
  | solve (svc : Except Unit MathSolution)
  | clear

/-- Enabling guard of the solve trigger: the Start Pipeline button is
rendered only when an image is present and the stage is idle. -/
def solveEnabled (s : AppState) : Prop :=
  s.image.isSome = true ∧ s.stage = Stage.idle

instance (s : AppState) : Decidable (solveEnabled s) := by
  unfold solveEnabled; infer_instance

/-- One public operation applied to the solver state; the solve event is
a no-op when its UI trigger is not enabled. -/
def appStep (s : AppState) (e : AppEvent) : AppState :=
  match e with
  | AppEvent.selectFile f => (processFile f s).1
  | AppEvent.solve svc => if solveEnabled s then (handleSolve s svc).state else s
  | AppEvent.clear => clearImage s

/-- States reachable from the initial solver state through the public
operations. -/
inductive Reachable : AppState → Prop where
  | init : Reachable initialAppState
  | step (s : AppState) (e : AppEvent) : Reachable s → Reachable (appStep s e)

/-- The practice component state of PracticeMode.tsx: the useState hooks
question, loading, userAnswer, answerImage, grading, isGrading and
difficulty. -/
structure PracticeState where
  question : Option QuizQuestion
  loading : Bool
  userAnswer : String
  answerImage : Option String
  grading : Option GradingResult
  isGrading : Bool
  difficulty : Difficulty
deriving DecidableEq

/-- Initial values of the PracticeMode.tsx useState hooks. -/
def initialPracticeState : PracticeState :=
  { question := none, loading := false, userAnswer := "", answerImage := none,
    grading := none, isGrading := false, difficulty := Difficulty.medium }

/-- fetchQuestion from PracticeMode.tsx: sets loading, clears grading,
answer text and answer image, then awaits generatePracticeQuestion with
the stored difficulty. On success the question hook is replaced; on
failure the catch only logs the error, so the question hook keeps its
previous value and no error is stored anywhere; the finally block clears
loading on both paths. The service outcome is the `svc` argument. -/
def fetchQuestion (s : PracticeState) (svc : Except Unit QuizQuestion) : PracticeState :=
  let s1 : PracticeState :=
    { s with loading := true, grading := none, userAnswer := "", answerImage := none }
  match svc with
  | Except.ok q => { s1 with question := some q, loading := false }
  | Except.error _ => { s1 with loading := false }

/-- handleDifficultyChange from PracticeMode.tsx: returns unchanged when
the level equals the current difficulty; otherwise it stores the new
level, and when grading, answer text and answer image are all empty it
immediately sets loading and issues generatePracticeQuestion with the
new level (the inline then-handler stores the question and clears
loading on success; there is no catch or finally, so on failure loading
stays set and nothing else changes). The second component reports the
difficulty of the question request issued, if any. -/
def handleDifficultyChange (s : PracticeState) (level : Difficulty)
    (svc : Except Unit QuizQuestion) : PracticeState × Option Difficulty :=
  if level = s.difficulty then (s, none)
  else
    let s1 : PracticeState := { s with difficulty := level }
    if s.grading = none ∧ s.userAnswer = "" ∧ s.answerImage = none then
      match svc with
      | Except.ok q => ({ s1 with loading := false, question := some q }, some level)
      | Except.error _ => ({ s1 with loading := true }, some level)
    else (s1, none)

/-- handleSubmit from PracticeMode.tsx: returns at once when no question
is active or the trimmed answer text is empty and no answer image is
present; otherwise it issues the gradeAnswer request, storing the result
in the grading hook on success, and on failure only logging, with the
finally block clearing isGrading on both paths; question, answer text
and answer image are never written. The Bool reports whether a grading
request was issued. -/
def handleSubmit (s : PracticeState) (svc : Except Unit GradingResult) :
    PracticeState × Bool :=
  if s.question = none ∨ (jsTrim s.userAnswer = "" ∧ s.answerImage = none) then (s, false)
  else
    match svc with
    | Except.ok r => ({ s with grading := some r, isGrading := false }, true)
    | Except.error _ => ({ s with isGrading := false }, true)

/-- The user-facing submit operation of PracticeMode.tsx: handleSubmit is
triggered only by the send button or by Enter in the answer input, and
both carry `disabled` while loading, isGrading or grading is set (the
button also while the answer is empty, which handleSubmit re-checks), so
with any of those flags set the call never happens. -/
def submitAnswer (s : PracticeState) (svc : Except Unit GradingResult) :
    PracticeState × Bool :=
  if s.loading = true ∨ s.isGrading = true ∨ s.grading.isSome = true then (s, false)
  else handleSubmit s svc

/-- Easy-branch prompt of the switch in generatePracticeQuestion. -/
def easyPrompt : String :=
  "Generate a random simple algebra math practice problem suitable for beginners (e.g., linear equations, basic factorization, simple arithmetic)."

/-- Hard-branch prompt of the switch in generatePracticeQuestion. -/
def hardPrompt : String :=
  "Generate a challenging random math practice problem suitable for advanced college level (e.g., Differential Equations, Complex Integrals, Eigenvalues/Eigenvectors, Multivariable Calculus)."

/-- Prompt shared by the Medium case and the default branch of the switch
in generatePracticeQuestion. -/
def mediumPrompt : String :=
  "Generate a random math practice problem suitable for high school or early college level (e.g., Calculus limits/derivatives, quadratic equations, basic matrices)."

/-- The switch in generatePracticeQuestion of geminiService.ts, seen at
runtime where the TypeScript union type is erased: the Easy and Hard
cases pick their prompts and every other value, the valid Medium
included, falls to the shared Medium/default branch. -/
def difficultyPrompt (d : String) : String :=
  if d = "Easy" then easyPrompt
  else if d = "Hard" then hardPrompt
  else mediumPrompt

/-- generatePracticeQuestion from geminiService.ts, at runtime: after the
switch picks the prompt the upstream request is issued unconditionally
(there is no local rejection path for any difficulty value) and the
service outcome is passed through, a thrown error being logged and
rethrown unchanged. The second component lists the prompts of the
upstream requests issued. -/
def generatePracticeQuestion (d : String) (svc : Except Unit QuizQuestion) :
    Except Unit QuizQuestion × List String :=
  (svc, [difficultyPrompt d])

/-- A JSON value, the result of JSON.parse on a service response body. -/
inductive JsonVal where
  | jnull
  | jbool (b : Bool)
  | jnum (n : Int)
  | jstr (s : String)
  | jarr (elems : List JsonVal)
  | jobj (fields : List (String × JsonVal))

/-- Whether a JSON value is an object carrying the given key. -/
def hasField (v : JsonVal) (k : String) : Bool :=
  match v with
  | JsonVal.jobj fs => fs.any (fun p => p.1 == k)
  | _ => false

/-- Whether a JSON value is an object whose value at the given key is an
array. -/
def fieldIsArray (v : JsonVal) (k : String) : Bool :=
  match v with
  | JsonVal.jobj fs =>
    match fs.find? (fun p => p.1 == k) with
    | some p =>
      match p.2 with
      | JsonVal.jarr _ => true
      | _ => false
    | none => false
  | _ => false

/-- Error raised by the response handling of solveMathProblem when the
response carries no text. -/
inductive GeminiError where
  | noResponseText
deriving DecidableEq

/-- Response handling of solveMathProblem in geminiService.ts: when
response.text is present its JSON.parse result is returned as-is (the
`as MathSolution` cast is compile-time only and checks nothing), and
when it is absent or empty the generic `No response text` error is
thrown, caught, logged and rethrown on the same path as transport
errors. The argument is the parsed response text, `none` standing for a
missing or empty one. -/
def handleSolveResponse (respText : Option JsonVal) : Except GeminiError JsonVal :=
  match respText with
  | some v => Except.ok v
  | none => Except.error GeminiError.noResponseText

/-- JavaScript `a || b` on strings: the empty string is the only falsy
string. -/
def jsOrString (a b : String) : String :=
  if a = "" then b else a

/-- The expression rendered by SolutionDisplay.tsx for the main problem
card: `solution.cleanedLatex || solution.originalLatex`. -/
def displayLatex (sol : MathSolution) : String :=
  jsOrString sol.cleanedLatex sol.originalLatex

/-- A concrete conforming solution payload, used as a fixture. -/
def sampleSolution : MathSolution :=
  { originalLatex := "x+1=2", cleanedLatex := "x+1=2", problemType := "Algebra",
    steps := [], finalAnswer := "x=1", confidence := 1 }

/-- A concrete image file, used as a fixture. -/
def pngFile : SelectedFile :=
  { fileType := "image/png", dataUri := "data:image/png;base64,iVBOR" }

/-- A concrete non-image file, used as a fixture. -/
def pdfFile : SelectedFile :=
  { fileType := "application/pdf", dataUri := "data:application/pdf;base64,JVBER" }

/-- A second concrete non-image file, used as a fixture. -/
def txtFile : SelectedFile :=
  { fileType := "text/plain", dataUri := "data:text/plain;base64,aGk" }

/-- A concrete practice question, used as a fixture. -/
def sampleQuestion : QuizQuestion :=
  { id := "q1", latex := "2x+3=7", difficulty := Difficulty.easy,
    topic := "Linear Equations" }

/-- A concrete grading payload, used as a fixture. -/
def sampleGrading : GradingResult :=
  { isCorrect := true, score := 10, feedback := "Correct!", correctSolution := "x=2" }

/-- Helper: processFile always leaves the solution hook cleared. -/
theorem processFile_solution_none (f : SelectedFile) (s : AppState) :
    ((processFile f s).1).solution = none := by
  unfold processFile
  by_cases hf : isImageFile f
  · simp [hf]
  · simp [hf]

/-- Helper: processFile always leaves the stage at idle. -/
theorem processFile_stage_idle (f : SelectedFile) (s : AppState) :
    ((processFile f s).1).stage = Stage.idle := by
  unfold processFile
  by_cases hf : isImageFile f
  · simp [hf]
  · simp [hf]

/-- Helper: processFile on a non-image file sets the invalid-image error,
keeps the stored image and issues no request. -/
theorem processFile_nonimage (f : SelectedFile) (s : AppState)
    (hf : isImageFile f = false) :
    processFile f s =
      ({ s with
          solution := none
          errorMsg := some invalidImageMsg
          stage := Stage.idle },
       ([] : List SvcRequest)) := by
  unfold processFile
  simp [hf]

/-- Helper invariant: in every reachable solver state, a published
solution forces the stage to be complete. -/
theorem reachable_solution_imp_complete (s : AppState) (h : Reachable s) :
    s.solution.isSome = true → s.stage = Stage.complete := by
  induction h with
  | init => intro hs; simp [initialAppState] at hs
  | step s0 e _ ih =>
    cases e with
    | selectFile f =>
      intro hs
      have heq : appStep s0 (AppEvent.selectFile f) = (processFile f s0).1 := rfl
      rw [heq, processFile_solution_none] at hs
      simp at hs
    | solve svc =>
      have heq : appStep s0 (AppEvent.solve svc) =
          if solveEnabled s0 then (handleSolve s0 svc).state else s0 := rfl
      rw [heq]
      by_cases he : solveEnabled s0
      · rw [if_pos he]
        obtain ⟨himg, hidle⟩ := he
        cases himg2 : s0.image with
        | none => rw [himg2] at himg; simp at himg
        | some img =>
          cases svc with
          | ok r => intro _; simp [handleSolve, himg2]
          | error u =>
            intro hs
            simp only [handleSolve, himg2] at hs
            have hcomp := ih hs
            rw [hidle] at hcomp
            exact absurd hcomp (by decide)
      · rw [if_neg he]; exact ih
    | clear =>
      intro hs
      have heq : appStep s0 AppEvent.clear = clearImage s0 := rfl
      rw [heq] at hs
      simp [clearImage] at hs

/-- C1: from an idle state with an image present, a solve run whose
service call returns a solution passes through exactly the stages idle,
preprocessing, ocr, parsing, solving, complete, in that order with no
stage skipped or repeated, and publishes exactly the returned payload. -/
theorem solve_success_stage_sequence (s : AppState) (r : MathSolution)
    (hidle : s.stage = Stage.idle) (himg : s.image.isSome = true) :
    (handleSolve s (Except.ok r)).trace =
      [Stage.idle, Stage.preprocessing, Stage.ocr, Stage.parsing,
       Stage.solving, Stage.complete] ∧
    (handleSolve s (Except.ok r)).state.solution = some r ∧
    (handleSolve s (Except.ok r)).state.stage = Stage.complete := by
  cases himg2 : s.image with
  | none => rw [himg2] at himg; simp at himg
  | some img => simp [handleSolve, himg2, hidle]

/-- Witness for C1 at a concrete idle state and service payload. -/
theorem solve_success_stage_sequence_witness :
    (handleSolve
        { image := some pngFile.dataUri, stage := Stage.idle,
          solution := none, errorMsg := none }
        (Except.ok sampleSolution)).trace =
      [Stage.idle, Stage.preprocessing, Stage.ocr, Stage.parsing,
       Stage.solving, Stage.complete] ∧
    (handleSolve
        { image := some pngFile.dataUri, stage := Stage.idle,
          solution := none, errorMsg := none }
        (Except.ok sampleSolution)).state.solution = some sampleSolution ∧
    (handleSolve
        { image := some pngFile.dataUri, stage := Stage.idle,
          solution := none, errorMsg := none }
        (Except.ok sampleSolution)).state.stage = Stage.complete :=
  solve_success_stage_sequence _ sampleSolution rfl rfl

/-- C2: in every reachable solver state a published solution is present
only at the complete stage and the error stage carries no solution; and
whenever the solve trigger is enabled and the service call rejects, the
run ends at the error stage with no solution published. -/
theorem reachable_solution_only_at_complete (s : AppState) (h : Reachable s) :
    (s.solution.isSome = true → s.stage = Stage.complete) ∧
    (s.stage = Stage.error → s.solution = none) ∧
    (∀ u : Unit, solveEnabled s →
      (handleSolve s (Except.error u)).state.stage = Stage.error ∧
      (handleSolve s (Except.error u)).state.solution = none) := by
  refine ⟨reachable_solution_imp_complete s h, ?_, ?_⟩
  · intro herr
    cases hsol : s.solution with
    | none => rfl
    | some r =>
      have hcomp := reachable_solution_imp_complete s h (by rw [hsol]; rfl)
      rw [herr] at hcomp
      exact absurd hcomp (by decide)
  · intro u he
    obtain ⟨himg, hidle⟩ := he
    have hnone : s.solution = none := by
      cases hsol : s.solution with
      | none => rfl
      | some r =>
        have hcomp := reachable_solution_imp_complete s h (by rw [hsol]; rfl)
        rw [hidle] at hcomp
        exact absurd hcomp (by decide)
    cases himg2 : s.image with
    | none => rw [himg2] at himg; simp at himg
    | some img => simp [handleSolve, himg2, hnone]

/-- Witness for C2 at the reachable state obtained by selecting a valid
image file in the initial state. -/
theorem reachable_solution_only_at_complete_witness :
    ((appStep initialAppState (AppEvent.selectFile pngFile)).solution.isSome = true →
      (appStep initialAppState (AppEvent.selectFile pngFile)).stage = Stage.complete) ∧
    ((appStep initialAppState (AppEvent.selectFile pngFile)).stage = Stage.error →
      (appStep initialAppState (AppEvent.selectFile pngFile)).solution = none) ∧
    (∀ u : Unit, solveEnabled (appStep initialAppState (AppEvent.selectFile pngFile)) →
      (handleSolve (appStep initialAppState (AppEvent.selectFile pngFile))
        (Except.error u)).state.stage = Stage.error ∧
      (handleSolve (appStep initialAppState (AppEvent.selectFile pngFile))
        (Except.error u)).state.solution = none) :=
  reachable_solution_only_at_complete _
    (Reachable.step initialAppState (AppEvent.selectFile pngFile) Reachable.init)

/-- C7: selecting a non-image file issues no service request, sets the
invalid-image error message at once, leaves the stage at idle (short of
every processing stage) and never stores the file's data; and when no
image was stored beforehand, a subsequent solve run on the resulting
state issues no request and changes nothing. -/
theorem nonimage_no_request (s : AppState) (f : SelectedFile)
    (hf : isImageFile f = false) :
    (processFile f s).2 = [] ∧
    (processFile f s).1.errorMsg = some invalidImageMsg ∧
    (processFile f s).1.stage = Stage.idle ∧
    (processFile f s).1.image = s.image ∧
    (s.image = none → ∀ svc,
      (handleSolve (processFile f s).1 svc).requests = [] ∧
      (handleSolve (processFile f s).1 svc).state = (processFile f s).1) := by
  rw [processFile_nonimage f s hf]
  refine ⟨rfl, rfl, rfl, rfl, ?_⟩
  intro himg svc
  constructor
  · simp [handleSolve, himg]
  · simp [handleSolve, himg]

/-- Witness for C7 at a concrete non-image file selected in the initial
state. -/
theorem nonimage_no_request_witness :
    (processFile pdfFile initialAppState).2 = [] ∧
    (processFile pdfFile initialAppState).1.errorMsg = some invalidImageMsg ∧
    (processFile pdfFile initialAppState).1.stage = Stage.idle ∧
    (processFile pdfFile initialAppState).1.image = initialAppState.image ∧
    (initialAppState.image = none → ∀ svc,
      (handleSolve (processFile pdfFile initialAppState).1 svc).requests = [] ∧
      (handleSolve (processFile pdfFile initialAppState).1 svc).state =
        (processFile pdfFile initialAppState).1) :=
  nonimage_no_request initialAppState pdfFile (by decide)

/-- C10: processFile clears the published solution and resets the stage
to idle for every incoming state and every file, image or not, because
the clearing happens before the type check; the error message ends up
cleared for an image file and replaced by the invalid-image message for
any other file, never left stale. -/
theorem processFile_clears_session (s : AppState) (f : SelectedFile) :
    (processFile f s).1.solution = none ∧
    (processFile f s).1.stage = Stage.idle ∧
    (isImageFile f = false → (processFile f s).1.errorMsg = some invalidImageMsg) ∧
    (isImageFile f = true → (processFile f s).1.errorMsg = none) := by
  unfold processFile
  by_cases hf : isImageFile f = true
  · simp [hf]
  · simp [hf]

/-- Witness for C10: a non-image file selected in a state holding a
completed solution discards that solution. -/
theorem processFile_clears_session_witness :
    (processFile txtFile
        { image := some pngFile.dataUri, stage := Stage.complete,
          solution := some sampleSolution, errorMsg := none }).1.solution = none ∧
    (processFile txtFile
        { image := some pngFile.dataUri, stage := Stage.complete,
          solution := some sampleSolution, errorMsg := none }).1.stage = Stage.idle ∧
    (isImageFile txtFile = false →
      (processFile txtFile
          { image := some pngFile.dataUri, stage := Stage.complete,
            solution := some sampleSolution, errorMsg := none }).1.errorMsg =
        some invalidImageMsg) ∧
    (isImageFile txtFile = true →
      (processFile txtFile
          { image := some pngFile.dataUri, stage := Stage.complete,
            solution := some sampleSolution, errorMsg := none }).1.errorMsg = none) :=
  processFile_clears_session
    { image := some pngFile.dataUri, stage := Stage.complete,
      solution := some sampleSolution, errorMsg := none }
    txtFile

/-- C4: with a grading result already stored, the user-facing submit
operation issues no grading request and changes nothing; a missing
question or an all-empty answer is likewise rejected without a request;
and when a grading request does fail, the question, answer text, answer
image and grading result are all left unchanged, so the answer can be
resubmitted. -/
theorem submit_guards_and_failure (s : PracticeState) :
    (∀ svc, s.grading.isSome = true → submitAnswer s svc = (s, false)) ∧
    (∀ svc, s.question = none → submitAnswer s svc = (s, false)) ∧
    (∀ svc, jsTrim s.userAnswer = "" ∧ s.answerImage = none →
      submitAnswer s svc = (s, false)) ∧
    (∀ u : Unit,
      (submitAnswer s (Except.error u)).1.question = s.question ∧
      (submitAnswer s (Except.error u)).1.userAnswer = s.userAnswer ∧
      (submitAnswer s (Except.error u)).1.answerImage = s.answerImage ∧
      (submitAnswer s (Except.error u)).1.grading = s.grading) := by
  refine ⟨?_, ?_, ?_, ?_⟩
  · intro svc hg
    unfold submitAnswer
    rw [if_pos (Or.inr (Or.inr hg))]
  · intro svc hq
    unfold submitAnswer handleSubmit
    by_cases hb : s.loading = true ∨ s.isGrading = true ∨ s.grading.isSome = true
    · rw [if_pos hb]
    · rw [if_neg hb, if_pos (Or.inl hq)]
  · intro svc ha
    unfold submitAnswer handleSubmit
    by_cases hb : s.loading = true ∨ s.isGrading = true ∨ s.grading.isSome = true
    · rw [if_pos hb]
    · rw [if_neg hb, if_pos (Or.inr ha)]
  · intro u
    unfold submitAnswer handleSubmit
    by_cases hb : s.loading = true ∨ s.isGrading = true ∨ s.grading.isSome = true
    · rw [if_pos hb]
      exact ⟨rfl, rfl, rfl, rfl⟩
    · rw [if_neg hb]
      by_cases hg : s.question = none ∨ (jsTrim s.userAnswer = "" ∧ s.answerImage = none)
      · rw [if_pos hg]
        exact ⟨rfl, rfl, rfl, rfl⟩
      · rw [if_neg hg]
        exact ⟨rfl, rfl, rfl, rfl⟩

/-- Witness for C4: a graded round rejects a further submit unchanged,
and a failing grading call on an answered, ungraded round leaves the
round intact. -/
theorem submit_guards_and_failure_witness :
    submitAnswer
      { question := some sampleQuestion, loading := false, userAnswer := "x=2",
        answerImage := none, grading := some sampleGrading, isGrading := false,
        difficulty := Difficulty.easy }
      (Except.ok sampleGrading) =
      ({ question := some sampleQuestion, loading := false, userAnswer := "x=2",
         answerImage := none, grading := some sampleGrading, isGrading := false,
         difficulty := Difficulty.easy }, false) ∧
    (submitAnswer
      { question := some sampleQuestion, loading := false, userAnswer := "x=2",
        answerImage := none, grading := none, isGrading := false,
        difficulty := Difficulty.easy }
      (Except.error ())).1.userAnswer = "x=2" :=
  ⟨(submit_guards_and_failure
      { question := some sampleQuestion, loading := false, userAnswer := "x=2",
        answerImage := none, grading := some sampleGrading, isGrading := false,
        difficulty := Difficulty.easy }).1 (Except.ok sampleGrading) rfl,
   ((submit_guards_and_failure
      { question := some sampleQuestion, loading := false, userAnswer := "x=2",
        answerImage := none, grading := none, isGrading := false,
        difficulty := Difficulty.easy }).2.2.2 ()).2.1⟩

/-- C6: called with a level different from the current one,
handleDifficultyChange issues an immediate question request with the new
level exactly when the round is unanswered and free of typed text and of
an uploaded answer image; in every other case the resulting state is the
old one with only the difficulty preference updated, question, answer
and grading untouched; and in the triggered case a successful fetch
replaces the question. -/
theorem difficulty_change_policy (s : PracticeState) (level : Difficulty)
    (hne : level ≠ s.difficulty) :
    (∀ svc, (handleDifficultyChange s level svc).2 = some level ↔
      (s.grading = none ∧ s.userAnswer = "" ∧ s.answerImage = none)) ∧
    (¬(s.grading = none ∧ s.userAnswer = "" ∧ s.answerImage = none) →
      ∀ svc, (handleDifficultyChange s level svc).1 = { s with difficulty := level }) ∧
    ((s.grading = none ∧ s.userAnswer = "" ∧ s.answerImage = none) →
      ∀ q, (handleDifficultyChange s level (Except.ok q)).1.question = some q ∧
        (handleDifficultyChange s level (Except.ok q)).1.difficulty = level) := by
  have hne2 : ¬ level = s.difficulty := hne
  refine ⟨?_, ?_, ?_⟩
  · intro svc
    unfold handleDifficultyChange
    rw [if_neg hne2]
    by_cases hc : s.grading = none ∧ s.userAnswer = "" ∧ s.answerImage = none
    · rw [if_pos hc]
      cases svc with
      | ok q => simpa using hc
      | error u => simpa using hc
    · rw [if_neg hc]
      simpa using hc
  · intro hc svc
    unfold handleDifficultyChange
    rw [if_neg hne2, if_neg hc]
  · intro hc q
    unfold handleDifficultyChange
    rw [if_neg hne2, if_pos hc]
    exact ⟨rfl, rfl⟩

/-- Witness for C6: on a fresh untouched round a change to hard triggers
a request with hard and a successful fetch installs the new question,
while on a graded round the same change only updates the preference. -/
theorem difficulty_change_policy_witness :
    (handleDifficultyChange initialPracticeState Difficulty.hard
        (Except.ok sampleQuestion)).2 = some Difficulty.hard ∧
    (handleDifficultyChange initialPracticeState Difficulty.hard
        (Except.ok sampleQuestion)).1.question = some sampleQuestion ∧
    (handleDifficultyChange
        { question := some sampleQuestion, loading := false, userAnswer := "x=2",
          answerImage := none, grading := some sampleGrading, isGrading := false,
          difficulty := Difficulty.easy }
        Difficulty.hard (Except.ok sampleQuestion)).1 =
      { question := some sampleQuestion, loading := false, userAnswer := "x=2",
        answerImage := none, grading := some sampleGrading, isGrading := false,
        difficulty := Difficulty.hard } :=
  ⟨((difficulty_change_policy initialPracticeState Difficulty.hard
      (by decide)).1 (Except.ok sampleQuestion)).mpr ⟨rfl, rfl, rfl⟩,
   ((difficulty_change_policy initialPracticeState Difficulty.hard
      (by decide)).2.2 ⟨rfl, rfl, rfl⟩ sampleQuestion).1,
   (difficulty_change_policy
      { question := some sampleQuestion, loading := false, userAnswer := "x=2",
        answerImage := none, grading := some sampleGrading, isGrading := false,
        difficulty := Difficulty.easy }
      Difficulty.hard (by decide)).2.1
      (by intro hc; exact absurd hc.2.1 (by decide)) (Except.ok sampleQuestion)⟩

/-- Counterexample to C8: with a question already present, a failing
fetch leaves the question hook holding that question, not none. -/
theorem fetch_failure_keeps_question_counterexample :
    (fetchQuestion
        { question := some sampleQuestion, loading := false, userAnswer := "",
          answerImage := none, grading := none, isGrading := false,
          difficulty := Difficulty.easy }
        (Except.error ())).question = some sampleQuestion ∧
    (fetchQuestion
        { question := some sampleQuestion, loading := false, userAnswer := "",
          answerImage := none, grading := none, isGrading := false,
          difficulty := Difficulty.easy }
        (Except.error ())).question.isSome = true :=
  ⟨rfl, rfl⟩

/-- C8 as amended: fetchQuestion clears the grading result, the answer
text and the answer image and ends with loading cleared; on success it
replaces the question with the fetched one; on failure it leaves the
question hook unchanged, the error being only logged, never surfaced to
state. -/
theorem fetch_question_effects (s : PracticeState) :
    (∀ q, fetchQuestion s (Except.ok q) =
      { s with
          question := some q
          grading := none
          userAnswer := ""
          answerImage := none
          loading := false }) ∧
    (∀ u : Unit, fetchQuestion s (Except.error u) =
      { s with
          grading := none
          userAnswer := ""
          answerImage := none
          loading := false }) := by
  constructor
  · intro q
    rfl
  · intro u
    rfl

/-- Counterexample to C3: a parsed payload that lacks finalAnswer and
whose steps field is no sequence is returned to the caller unvalidated,
not rejected with a malformed-response error. -/
theorem missing_final_answer_accepted_counterexample :
    hasField (JsonVal.jobj [("originalLatex", JsonVal.jstr "x"),
      ("steps", JsonVal.jstr "oops")]) "finalAnswer" = false ∧
    fieldIsArray (JsonVal.jobj [("originalLatex", JsonVal.jstr "x"),
      ("steps", JsonVal.jstr "oops")]) "steps" = false ∧
    handleSolveResponse (some (JsonVal.jobj [("originalLatex", JsonVal.jstr "x"),
      ("steps", JsonVal.jstr "oops")])) =
      Except.ok (JsonVal.jobj [("originalLatex", JsonVal.jstr "x"),
        ("steps", JsonVal.jstr "oops")]) :=
  ⟨rfl, rfl, rfl⟩

/-- C3 as amended: solveMathProblem applies no shape validation at all;
any parsed payload, one missing finalAnswer or one whose steps field is
no sequence included, is handed onward unchanged, and the only locally
raised failure is the generic no-response-text error for an absent or
empty response, thrown on the same path as transport errors. -/
theorem no_shape_validation (v : JsonVal) :
    (hasField v "finalAnswer" = false → handleSolveResponse (some v) = Except.ok v) ∧
    (fieldIsArray v "steps" = false → handleSolveResponse (some v) = Except.ok v) ∧
    handleSolveResponse (none : Option JsonVal) =
      Except.error GeminiError.noResponseText := by
  exact ⟨fun _ => rfl, fun _ => rfl, rfl⟩

/-- Witness for the amended C3 at a concrete field-free payload. -/
theorem no_shape_validation_witness :
    handleSolveResponse (some (JsonVal.jobj [("finalAnswer", JsonVal.jstr "x=1")])) =
      Except.ok (JsonVal.jobj [("finalAnswer", JsonVal.jstr "x=1")]) ∧
    handleSolveResponse (some JsonVal.jnull) = Except.ok JsonVal.jnull :=
  ⟨(no_shape_validation (JsonVal.jobj [("finalAnswer", JsonVal.jstr "x=1")])).2.1 rfl,
   (no_shape_validation JsonVal.jnull).1 rfl⟩

/-- Counterexample to C5: an unrecognized difficulty value is not
rejected locally; the upstream request is issued, carrying the Medium
prompt picked by the default branch. -/
theorem invalid_difficulty_requests_counterexample :
    (generatePracticeQuestion "Bogus" (Except.error ())).2 = [mediumPrompt] ∧
    (generatePracticeQuestion "Bogus" (Except.error ())).2 ≠ [] :=
  ⟨rfl, by decide⟩

/-- C5 as amended: generatePracticeQuestion never fails fast locally; for
every difficulty value exactly one upstream request is issued, and every
value other than Easy and Hard, the valid Medium as much as any
unrecognized value, takes the default branch and is sent with the Medium
prompt. -/
theorem default_branch_covers_invalid (d : String)
    (h1 : d ≠ "Easy") (h2 : d ≠ "Hard") :
    ∀ svc, (generatePracticeQuestion d svc).2 = [mediumPrompt] ∧
      (generatePracticeQuestion d svc).2.length = 1 := by
  intro svc
  constructor
  · unfold generatePracticeQuestion difficultyPrompt
    rw [if_neg h1, if_neg h2]
  · rfl

/-- Witness for the amended C5 at a concrete unrecognized value. -/
theorem default_branch_covers_invalid_witness :
    (generatePracticeQuestion "Legendary" (Except.ok sampleQuestion)).2 =
      [mediumPrompt] ∧
    (generatePracticeQuestion "Legendary" (Except.ok sampleQuestion)).2.length = 1 :=
  default_branch_covers_invalid "Legendary" (by decide) (by decide)
    (Except.ok sampleQuestion)

/-- C9: the expression displayed for the main problem card is the cleaned
form whenever it is present (non-empty), and falls back to the original
expression exactly when the cleaned form is absent (empty, the only
falsy string). -/
theorem display_latex_fallback (sol : MathSolution) :
    (sol.cleanedLatex ≠ "" → displayLatex sol = sol.cleanedLatex) ∧
    (sol.cleanedLatex = "" → displayLatex sol = sol.originalLatex) := by
  constructor
  · intro hne
    unfold displayLatex jsOrString
    rw [if_neg hne]
  · intro he
    unfold displayLatex jsOrString
    rw [if_pos he]

/-- Witness for C9 at a payload with a cleaned form and at one without. -/
theorem display_latex_fallback_witness :
    displayLatex sampleSolution = sampleSolution.cleanedLatex ∧
    displayLatex
      { originalLatex := "x+1=2", cleanedLatex := "", problemType := "Algebra",
        steps := [], finalAnswer := "x=1", confidence := 1 } = "x+1=2" :=
  ⟨(display_latex_fallback sampleSolution).1 (by decide),
   (display_latex_fallback
      { originalLatex := "x+1=2", cleanedLatex := "", problemType := "Algebra",
        steps := [], finalAnswer := "x=1", confidence := 1 }).2 rfl⟩
